import Mathlib

/-! Tracing middleware, route handler and shutdown sequence of the telemetry example
server.

Shallow embedding of `main.go`.  The program is a sequence of calls into external
collaborators (the OpenTelemetry tracer, the HTTP server, the process environment).
The middleware, the route handler, the exporter constructor that `main` uses and `main`
itself are each embedded as a function that returns the ordered log of the calls it
performs, given the results of those calls.  The chain that serves `GET /` also runs
chi's request logger, installed between the middleware and the route handler.  Go's `defer` is embedded explicitly: an
activation registers deferred calls, and they run, last registered first, when the
activation ends, whether by return or by panic; they do not run when the process exits
through `log.Fatal`.
-/

namespace Telemetry

/-! ## Data model -/

/-- Value of an attribute: a string or an integer. -/
inductive AttrValue where
  | Str (s : String)
  | Int (n : Nat)
deriving DecidableEq, Repr

/-- Go `attribute.KeyValue`. -/
structure KeyValue where
  Key : String
  Value : AttrValue
deriving DecidableEq, Repr

/-- Go `trace.Span`, as far as the program and the claims observe it: its identifier and
the identifier of its parent (absent for a root span). -/
structure Span where
  SpanID : Nat
  Parent : Option Nat
deriving DecidableEq, Repr

/-- Go `context.Context`: the background context and the contexts derived from it. -/
inductive Context where
  | Background
  | WithSpan (parent : Context) (span : Span)
  | WithValue (parent : Context) (key : String) (val : String)
  | WithDeadline (parent : Context) (deadline : Nat)
deriving DecidableEq, Repr

/-- Go `trace.SpanFromContext`: the span active in a context, if any. -/
def SpanFromContext : Context → Option Span
  | .Background => none
  | .WithSpan _ s => some s
  | .WithValue p _ _ => SpanFromContext p
  | .WithDeadline p _ => SpanFromContext p

/-- Go `ctx.Deadline()`: the time at which the context is cancelled, if it has one. -/
def Context.Deadline : Context → Option Nat
  | .Background => none
  | .WithSpan p _ => p.Deadline
  | .WithValue p _ _ => p.Deadline
  | .WithDeadline p d =>
    match p.Deadline with
    | some d0 => some (min d0 d)
    | none => some d

/-- Go `ctx.Value(key)`, for the values stored with `WithValue`. -/
def Context.Value : Context → String → Option String
  | .Background, _ => none
  | .WithSpan p _, k => p.Value k
  | .WithValue p key val, k => if key = k then some val else p.Value k
  | .WithDeadline p _, k => p.Value k

/-- Go `url.Userinfo`: user name and optional password. -/
structure Userinfo where
  username : String
  password : String
  passwordSet : Bool
deriving DecidableEq, Repr

/-- Go `url.URL`; `User` is `none` for a nil `*Userinfo`. -/
structure URL where
  Scheme : String
  Opaque : String
  User : Option Userinfo
  Host : String
  Path : String
  RawPath : String
  OmitHost : Bool
  ForceQuery : Bool
  RawQuery : String
  Fragment : String
  RawFragment : String
deriving DecidableEq, Repr

/-- The zero value of `url.URL`. -/
def URL.zero : URL :=
  { Scheme := "", Opaque := "", User := none, Host := "", Path := "", RawPath := "",
    OmitHost := false, ForceQuery := false, RawQuery := "", Fragment := "",
    RawFragment := "" }

/-- Go `http.Request`, the fields the program and its libraries read. -/
structure Request where
  Method : String
  URL : URL
  Proto : String
  Header : List (String × String)
  Host : String
  RemoteAddr : String
  RequestURI : String
  TLS : Bool
  ctx : Context
deriving DecidableEq, Repr

/-- Go `r.Context()`. -/
def Request.Context (r : Request) : Context := r.ctx

/-- Go `r.WithContext(ctx)`: a copy of the request carrying the given context. -/
def Request.WithContext (r : Request) (ctx : Telemetry.Context) : Request :=
  { r with ctx := ctx }

/-- Go `trace.WithAttributes(...)`, the only start or event option the program builds. -/
inductive SpanOption where
  | WithAttributes (attrs : List KeyValue)
deriving DecidableEq, Repr

/-- Go `http.ResponseWriter` handed to a handler: a writer of the HTTP server, or the
wrapper that chi's `NewWrapResponseWriter` puts around a writer. -/
inductive ResponseWriter where
  | server (id : Nat)
  | wrapped (inner : ResponseWriter)
deriving DecidableEq, Repr

/-- The calls a handler makes into its collaborators. -/
inductive Call where
  | TracerStart (ctx : Context) (spanName : String) (opts : List SpanOption)
  | SpanEnd (span : Span)
  | SpanAddEvent (span : Span) (name : String) (opts : List SpanOption)
  | Println (line : String)
  | Sleep (ms : Nat)
  | Write (w : ResponseWriter) (body : String)
  | WriteHeader (w : ResponseWriter) (status : Nat)
  | ServeHTTP (w : ResponseWriter) (r : Request)
  | LogEntryWrite (entry : String)
deriving DecidableEq, Repr

/-- Whether a call is `tracer.Start`. -/
def Call.isTracerStart : Call → Bool
  | .TracerStart _ _ _ => true
  | _ => false

/-- Whether a call is `span.End`. -/
def Call.isSpanEnd : Call → Bool
  | .SpanEnd _ => true
  | _ => false

/-- Whether a call is `span.AddEvent`. -/
def Call.isSpanAddEvent : Call → Bool
  | .SpanAddEvent _ _ _ => true
  | _ => false

/-- Whether a call is `w.Write`. -/
def Call.isWrite : Call → Bool
  | .Write _ _ => true
  | _ => false

/-- Whether a call is `w.WriteHeader`. -/
def Call.isWriteHeader : Call → Bool
  | .WriteHeader _ _ => true
  | _ => false

/-- Whether a call is `next.ServeHTTP`. -/
def Call.isServeHTTP : Call → Bool
  | .ServeHTTP _ _ => true
  | _ => false

/-- A logged call: `depth` is 0 for a call made by the handler under consideration itself
and `n + 1` for a call made at depth `n` inside the handler it forwards to. -/
structure Event where
  depth : Nat
  call : Call
deriving DecidableEq, Repr

/-- An event of the wrapped handler, as seen from the wrapping one. -/
def Event.lift (e : Event) : Event := { e with depth := e.depth + 1 }

/-- How an activation ends: by returning or by a panic that unwinds it. -/
inductive Outcome where
  | returned
  | panicked (value : String)
deriving DecidableEq, Repr

/-- Go `trace.Tracer` together with the spans it hands out (an interface in the source):
any implementation, over its own state `σ`. -/
structure Tracer (σ : Type) where
  Start : Context → String → List SpanOption → σ → (Context × Span) × σ
  End : Span → σ → σ
  AddEvent : Span → String → List SpanOption → σ → σ

/-- What running a handler amounts to: the calls made, how it ended, the tracer state. -/
structure Result (σ : Type) where
  log : List Event
  outcome : Outcome
  state : σ

/-- Go `http.Handler`: `ServeHTTP(w, r)`. -/
abbrev Handler (σ : Type) := ResponseWriter → Request → σ → Result σ

/-- A deferred call: run at the end of the activation that registered it. -/
abbrev Deferred (σ : Type) := σ → List Event × σ

/-- The body of an activation: its calls, how it ended, the state it left and the calls
it deferred, in the order of the `defer` statements. -/
structure Body (σ : Type) where
  log : List Event
  outcome : Outcome
  state : σ
  defers : List (Deferred σ)

/-- Runs deferred calls in the order given. -/
def runDeferred {σ : Type} : List (Deferred σ) → σ → List Event × σ
  | [], s => ([], s)
  | d :: ds, s =>
    let r := d s
    let rest := runDeferred ds r.2
    (r.1 ++ rest.1, rest.2)

/-- Go's function exit: the deferred calls run last registered first, both on return and
on panic, and the activation ends the way its body did. -/
def Body.exit {σ : Type} (b : Body σ) : Result σ :=
  let fin := runDeferred b.defers.reverse b.state
  { log := b.log ++ fin.1, outcome := b.outcome, state := fin.2 }

/-- The library functions the handlers call: `(*url.URL).String`,
`semconv.NetAttributesFromHTTPRequest` and, in chi's logger, `NewLogEntry` of the log
formatter (the entry is kept as the text it holds). -/
structure Lib where
  URLString : URL → String
  NetAttributesFromHTTPRequest : String → Request → List KeyValue
  NewLogEntry : Request → String

/-! ## `MyMiddleware` (main.go, lines 29-47) -/

/-- The start options `fn` builds at lines 31-32. -/
def MyMiddleware.opts (lib : Lib) (r : Request) : List SpanOption :=
  [SpanOption.WithAttributes (lib.NetAttributesFromHTTPRequest "tcp" r)]

/-- What `tracer.Start(r.Context(), r.URL.String(), opts...)` returns to `fn` at line 34. -/
def MyMiddleware.started {σ : Type} (lib : Lib) (tracer : Tracer σ) (r : Request) (s : σ) :
    (Context × Span) × σ :=
  tracer.Start r.Context (lib.URLString r.URL) (MyMiddleware.opts lib r) s

/-- The closure deferred at lines 36-39: it defers `span.End()` and prints `test`. -/
def MyMiddleware.deferred {σ : Type} (tracer : Tracer σ) (span : Span) : Deferred σ :=
  fun s =>
    let body : Body σ :=
      { log := [⟨0, .Println "test"⟩]
        outcome := .returned
        state := s
        defers := [fun t => ([⟨0, .SpanEnd span⟩], tracer.End span t)] }
    (body.exit.log, body.exit.state)

/-- The body of `fn` (lines 30-44), up to the end of `next.ServeHTTP(w, rr)`. -/
def MyMiddleware.body {σ : Type} (lib : Lib) (tracer : Tracer σ) (next : Handler σ)
    (w : ResponseWriter) (r : Request) (s : σ) : Body σ :=
  let opts := MyMiddleware.opts lib r
  let started := tracer.Start r.Context (lib.URLString r.URL) opts s
  let ctx := started.1.1
  let span := started.1.2
  let rr := r.WithContext ctx
  let served := next w rr started.2
  { log := [⟨0, .TracerStart r.Context (lib.URLString r.URL) opts⟩, ⟨0, .ServeHTTP w rr⟩]
      ++ served.log.map Event.lift
    outcome := served.outcome
    state := served.state
    defers := [MyMiddleware.deferred tracer span] }

/-- The handler `MyMiddleware(next)` returns: `fn`, wrapping `next`. -/
def MyMiddleware {σ : Type} (lib : Lib) (tracer : Tracer σ) (next : Handler σ) : Handler σ :=
  fun w r s => (MyMiddleware.body lib tracer next w r s).exit

/-! ## The handler of `GET /` (main.go, lines 103-113) -/

/-- What `tracer.Start(r.Context(), "child")` returns to the route handler at line 106. -/
def rootHandler.started {σ : Type} (tracer : Tracer σ) (r : Request) (s : σ) :
    (Context × Span) × σ :=
  tracer.Start r.Context "child" [] s

/-- The body of the function registered with `r.Get("/", ...)`. -/
def rootHandler.body {σ : Type} (lib : Lib) (tracer : Tracer σ)
    (w : ResponseWriter) (r : Request) (s : σ) : Body σ :=
  let started := tracer.Start r.Context "child" [] s
  let span := started.1.2
  let attrs := [SpanOption.WithAttributes (lib.NetAttributesFromHTTPRequest "tcp" r)]
  let s₁ := tracer.AddEvent span "Acquiring lock" attrs started.2
  let s₂ := tracer.AddEvent span "Unlocking" [] s₁
  { log :=
      [ ⟨0, .Sleep 100⟩,
        ⟨0, .TracerStart r.Context "child" []⟩,
        ⟨0, .SpanAddEvent span "Acquiring lock" attrs⟩,
        ⟨0, .Sleep 200⟩,
        ⟨0, .SpanAddEvent span "Unlocking" []⟩,
        ⟨0, .Write w "welcome"⟩ ]
    outcome := .returned
    state := s₂
    defers := [fun t => ([⟨0, .SpanEnd span⟩], tracer.End span t)] }

/-- The handler registered for `GET /`. -/
def rootHandler {σ : Type} (lib : Lib) (tracer : Tracer σ) : Handler σ :=
  fun w r s => (rootHandler.body lib tracer w r s).exit

/-! ## The chain of `GET /` (main.go, lines 100-113) -/

/-- Model of chi's `middleware.Logger`, which line 102 installs between `MyMiddleware`
and the route: it makes a log entry for the request, wraps the writer, defers the writing
of the entry, and forwards to `next` the wrapped writer and the request, whose context it
extends with the entry.  The deferred write runs on return and on panic. -/
def Logger {σ : Type} (lib : Lib) (next : Handler σ) : Handler σ :=
  fun w r s =>
    let entry := lib.NewLogEntry r
    let ww := ResponseWriter.wrapped w
    let rr := r.WithContext (Context.WithValue r.Context "LogEntry" entry)
    let served := next ww rr s
    let body : Body σ :=
      { log := [⟨0, .ServeHTTP ww rr⟩] ++ served.log.map Event.lift
        outcome := served.outcome
        state := served.state
        defers := [fun t => ([⟨0, .LogEntryWrite entry⟩], t)] }
    body.exit

/-- The chain the router runs for `GET /`, built from `r.Use(MyMiddleware)`,
`r.Use(middleware.Logger)` and `r.Get("/", ...)`: `MyMiddleware` around `Logger` around
the route handler.  The router's own dispatch hands the writer and the request on
unchanged and is not a level of its own; the request the router hands to `MyMiddleware`
is the request `r` here. -/
def routeChain {σ : Type} (lib : Lib) (tracer : Tracer σ) : Handler σ :=
  MyMiddleware lib tracer (Logger lib (rootHandler lib tracer))

/-- The context of the request that reaches the route handler in the chain: the context
the root `Start` returned, extended by the logger with its entry. -/
def routeChain.handlerContext {σ : Type} (lib : Lib) (tracer : Tracer σ) (r : Request)
    (s : σ) : Context :=
  Context.WithValue (MyMiddleware.started lib tracer r s).1.1 "LogEntry"
    (lib.NewLogEntry (r.WithContext (MyMiddleware.started lib tracer r s).1.1))

/-! ## Observations on a log -/

/-- The span name a call passes to `tracer.Start`. -/
def Call.spanName? : Call → Option String
  | .TracerStart _ n _ => some n
  | _ => none

/-- The context a call passes to `tracer.Start`. -/
def Call.startContext? : Call → Option Context
  | .TracerStart ctx _ _ => some ctx
  | _ => none

/-- The span a call ends. -/
def Call.endedSpan? : Call → Option Span
  | .SpanEnd span => some span
  | _ => none

/-- The attributes a call passes to `tracer.Start` through its options. -/
def Call.startAttributes : Call → List KeyValue
  | .TracerStart _ _ opts => opts.flatMap (fun o => match o with | .WithAttributes kvs => kvs)
  | _ => []

/-- The calls a handler makes itself, as opposed to those of the handler it forwards to. -/
def ownCalls (log : List Event) : List Call :=
  (log.filter (fun e => e.depth = 0)).map Event.call

/-- The names of the spans a handler starts itself, in order. -/
def startedNames (log : List Event) : List String :=
  (ownCalls log).filterMap Call.spanName?

/-- Every entry satisfying `p` is logged strictly before every entry satisfying `q`. -/
def AllBefore {α : Type} (p q : α → Bool) (log : List α) : Prop :=
  ∀ (i j : Nat) (a b : α), log[i]? = some a → log[j]? = some b → p a = true → q b = true → i < j

/-- The response as `net/http` builds it: status line and body. -/
structure Response where
  status : Option Nat
  body : String
deriving DecidableEq, Repr

/-- Effect of one call on the response of writer `w`: `WriteHeader` fixes the status if
none was sent yet, and `Write` sends status 200 first if none was sent yet. -/
def Response.apply (w : ResponseWriter) (resp : Response) : Call → Response
  | .WriteHeader w' code =>
    if w' = w ∧ resp.status = none then { resp with status := some code } else resp
  | .Write w' b =>
    if w' = w then { status := some (resp.status.getD 200), body := resp.body ++ b } else resp
  | _ => resp

/-- The response a log of calls produces on writer `w`. -/
def responseOf (w : ResponseWriter) (log : List Event) : Response :=
  (log.map Event.call).foldl (Response.apply w) { status := none, body := "" }

/-- A tracer parents a new span on the span active in the context it is given, and makes
the new span the active one of the context it returns. -/
def Tracer.ParentsOnActiveSpan {σ : Type} (tracer : Tracer σ) : Prop :=
  ∀ ctx name opts s,
    (tracer.Start ctx name opts s).1.2.Parent = (SpanFromContext ctx).map Span.SpanID ∧
    SpanFromContext (tracer.Start ctx name opts s).1.1 = some (tracer.Start ctx name opts s).1.2

/-! ## `main` and the exporter constructor (main.go, lines 49-56, 68-78, 90-139) -/

/-- The `otlptracehttp` client, as configured by `WithHeaders`. -/
structure Client where
  headers : List (String × String)
deriving DecidableEq, Repr

/-- The `otlptrace` exporter built over a client. -/
structure Exporter where
  client : Client
deriving DecidableEq, Repr

/-- Go `resource.Resource`: schema URL and attributes. -/
structure ResourceDescriptor where
  SchemaURL : String
  attrs : List KeyValue
deriving DecidableEq, Repr

/-- The resource `Resource()` builds (lines 49-56). -/
def Resource : ResourceDescriptor :=
  { SchemaURL := "https://opentelemetry.io/schemas/1.4.0"
    attrs := [⟨"service.name", .Str "go-metrics"⟩] }

/-- The steps of the main goroutine.  `LogFatal` stands for `log.Fatal` and `log.Fatalf`:
the message is logged and the process exits with status 1, without running deferred
calls.  `GoListenAndServe` is the `go` statement of lines 120-125, whose goroutine prints
the start line and calls `srv.ListenAndServe()`; what that goroutine does concurrently
is not part of the run.  `ReceiveStopSignal` is the receive `<-stopSignal`. -/
inductive Step where
  | SignalNotify (signals : List String)
  | Getenv (key : String)
  | NewClient (headers : List (String × String))
  | OtlpNew (ctx : Context) (client : Client)
  | LogFatal (message : String)
  | NewTracerProvider (exporter : Exporter) (resource : ResourceDescriptor)
  | SetTracerProvider
  | GetTracer (name : String)
  | NewRouter
  | Use (middleware : String)
  | Get (pattern : String)
  | GoListenAndServe (addr : String)
  | ReceiveStopSignal
  | Println (line : String)
  | SrvShutdown (ctx : Context)
  | TpShutdown (ctx : Context)
  | TpForceFlush (ctx : Context)
deriving DecidableEq, Repr

/-- Whether a step is `srv.Shutdown`. -/
def Step.isSrvShutdown : Step → Bool
  | .SrvShutdown _ => true
  | _ => false

/-- Whether a step is `tp.Shutdown`. -/
def Step.isTpShutdown : Step → Bool
  | .TpShutdown _ => true
  | _ => false

/-- Whether a step is `tp.ForceFlush`. -/
def Step.isTpForceFlush : Step → Bool
  | .TpForceFlush _ => true
  | _ => false

/-- Whether a step is the `go` statement that runs `srv.ListenAndServe`. -/
def Step.isGoListenAndServe : Step → Bool
  | .GoListenAndServe _ => true
  | _ => false

/-- Whether a step is `log.Fatal` or `log.Fatalf`. -/
def Step.isLogFatal : Step → Bool
  | .LogFatal _ => true
  | _ => false

/-- What the surroundings of `main` decide: the environment, the result of
`otlptrace.New`, whether a stop signal ever arrives, the error (`none` is `nil`) that
`srv.Shutdown` returns, and the error that `tp.Shutdown` returns for the context it is
given. -/
structure Inputs where
  env : String → Option String
  otlpNew : Context → Client → Except String Exporter
  stopSignal : Bool
  srvShutdown : Option String
  tpShutdown : Context → Option String

/-- The provider built at line 95 has one span processor, the batcher, and shutting it
down fails with nothing but the error of the context given: an error of the exporter is
handed to the global error handler, not returned.  A context without a deadline is never
cancelled and has no error. -/
def Inputs.ShutdownFailsOnlyWithContext (i : Inputs) : Prop :=
  ∀ ctx : Context, ctx.Deadline = none → i.tpShutdown ctx = none

/-- How the process ends: with an exit status, or never, blocked on `<-stopSignal`. -/
inductive Exit where
  | status (code : Nat)
  | blocked
deriving DecidableEq, Repr

/-- A run of the main goroutine. -/
structure Run where
  steps : List Step
  exit : Exit
deriving DecidableEq, Repr

/-- Go `os.Getenv`: the value of the variable, empty when it is not set. -/
def Getenv (env : String → Option String) (key : String) : String :=
  (env key).getD ""

/-- The client `CreateOTLPNewRelic` configures at lines 69-71. -/
def CreateOTLPNewRelic.client (i : Inputs) : Client :=
  { headers := [("api-key", Getenv i.env "SENTRY_API_KEY")] }

/-- The function `CreateOTLPNewRelic(ctx)` (lines 68-78): its steps, and the exporter
unless `log.Fatalf` ended the process. -/
def CreateOTLPNewRelic (i : Inputs) (ctx : Context) : List Step × Option Exporter :=
  let client := CreateOTLPNewRelic.client i
  let steps := [Step.Getenv "SENTRY_API_KEY", Step.NewClient client.headers,
    Step.OtlpNew ctx client]
  match i.otlpNew ctx client with
  | .error err => (steps ++ [Step.LogFatal ("creating OTLP trace exporter: " ++ err)], none)
  | .ok exporter => (steps, some exporter)

/-- Lines 128-138 of `main`, after the stop signal: the steps and whether `main` returns
(`true`) or `log.Fatal` exits the process (`false`). -/
def main.shutdown (i : Inputs) (ctx : Context) : List Step × Bool :=
  let s₁ := [Step.Println "Shutting down the server... ⌛️", Step.SrvShutdown Context.Background]
  let s₂ :=
    match i.srvShutdown with
    | some err => [Step.Println err]
    | none => []
  let s₃ := [Step.TpShutdown ctx]
  match i.tpShutdown ctx with
  | some err => (s₁ ++ s₂ ++ s₃ ++ [Step.LogFatal err], false)
  | none => (s₁ ++ s₂ ++ s₃ ++ [Step.Println "Shutting down the server...Done ✅"], true)

/-- The function `main` (lines 90-139).  The call deferred at line 96 runs when `main`
returns, and does not run when `log.Fatal` exits the process. -/
def main (i : Inputs) : Run :=
  let ctx := Context.Background
  let s₀ := [Step.SignalNotify ["interrupt", "terminated", "killed"]]
  match CreateOTLPNewRelic i ctx with
  | (s₁, none) => { steps := s₀ ++ s₁, exit := .status 1 }
  | (s₁, some exporter) =>
    let deferred := [Step.TpForceFlush ctx]
    let s₂ :=
      [ Step.NewTracerProvider exporter Resource,
        Step.SetTracerProvider,
        Step.GetTracer "",
        Step.NewRouter,
        Step.Use "MyMiddleware",
        Step.Use "middleware.Logger",
        Step.Get "/",
        Step.GoListenAndServe "0.0.0.0:3000",
        Step.ReceiveStopSignal ]
    if i.stopSignal then
      match main.shutdown i ctx with
      | (s₃, true) => { steps := s₀ ++ s₁ ++ s₂ ++ s₃ ++ deferred.reverse, exit := .status 0 }
      | (s₃, false) => { steps := s₀ ++ s₁ ++ s₂ ++ s₃, exit := .status 1 }
    else
      { steps := s₀ ++ s₁ ++ s₂, exit := .blocked }

/-! ## The libraries, as far as the examples below need them -/

/-- The escaping modes of `net/url` that `String` uses. -/
inductive Encoding where
  | encodePath
  | encodeHost
  | encodeUserPassword
  | encodeFragment
deriving DecidableEq, Repr

/-- The bytes of a character in UTF-8. -/
def utf8Bytes (c : Char) : List Nat :=
  let n := c.toNat
  if n < 128 then [n]
  else if n < 2048 then [192 + n / 64, 128 + n % 64]
  else if n < 65536 then [224 + n / 4096, 128 + n / 64 % 64, 128 + n % 64]
  else [240 + n / 262144, 128 + n / 4096 % 64, 128 + n / 64 % 64, 128 + n % 64]

/-- The bytes of a string, as Go indexes it. -/
def bytesOf (s : String) : List Nat := s.data.flatMap utf8Bytes

/-- Whether a byte is one of the characters of `set`. -/
def byteIn (set : String) (b : Nat) : Bool := set.data.any (fun c => c.toNat = b)

/-- Model of `shouldEscape` of `net/url`: letters and digits are never escaped; the host
keeps the sub-delimiters, the colon, brackets, angle brackets and both quotes (bytes 39
and 34); the marks `-_.~` are never escaped; of the reserved characters the path escapes
only `?`, the user information escapes `@ / ? :`, the fragment none; the fragment also
keeps `!()*`; every other byte is escaped. -/
def shouldEscape (b : Nat) (mode : Encoding) : Bool :=
  if (97 ≤ b ∧ b ≤ 122) ∨ (65 ≤ b ∧ b ≤ 90) ∨ (48 ≤ b ∧ b ≤ 57) then false
  else if mode = .encodeHost ∧ (byteIn "!$&()*+,;=:[]<>" b ∨ b = 39 ∨ b = 34) then false
  else if byteIn "-_.~" b then false
  else if byteIn "$&+,/:;=?@" b ∧ mode = .encodePath then decide (b = 63)
  else if byteIn "$&+,/:;=?@" b ∧ mode = .encodeUserPassword then
    decide (b = 64 ∨ b = 47 ∨ b = 63 ∨ b = 58)
  else if byteIn "$&+,/:;=?@" b ∧ mode = .encodeFragment then false
  else if mode = .encodeFragment ∧ byteIn "!()*" b then false
  else true

/-- The upper-case hexadecimal digit of a number below 16. -/
def upperhex (n : Nat) : Char := "0123456789ABCDEF".data.getD n '0'

/-- Model of `escape` of `net/url`, for the modes above: every byte that
`shouldEscape` names becomes `%XX`. -/
def escape (s : String) (mode : Encoding) : String :=
  String.mk (s.data.flatMap (fun c => (utf8Bytes c).flatMap (fun b =>
    if shouldEscape b mode then ['%', upperhex (b / 16), upperhex (b % 16)]
    else [Char.ofNat b])))

/-- Whether a byte is a hexadecimal digit. -/
def ishex (b : Nat) : Bool :=
  (48 ≤ b ∧ b ≤ 57) ∨ (97 ≤ b ∧ b ≤ 102) ∨ (65 ≤ b ∧ b ≤ 70)

/-- The value of a hexadecimal digit. -/
def unhex (b : Nat) : Nat :=
  if 48 ≤ b ∧ b ≤ 57 then b - 48
  else if 97 ≤ b ∧ b ≤ 102 then b - 97 + 10
  else if 65 ≤ b ∧ b ≤ 70 then b - 65 + 10
  else 0

/-- Where `unescape` stands in a `%XX` triple. -/
inductive Pending where
  | clear
  | percent
  | digit (high : Nat)
deriving DecidableEq, Repr

/-- One byte of `unescape`: a `%` must be followed by two hexadecimal digits. -/
def unescapeStep (st : Option (List Nat × Pending)) (b : Nat) :
    Option (List Nat × Pending) :=
  match st with
  | none => none
  | some (out, .clear) => if b = 37 then some (out, .percent) else some (out ++ [b], .clear)
  | some (out, .percent) => if ishex b then some (out, .digit b) else none
  | some (out, .digit h) =>
    if ishex b then some (out ++ [unhex h * 16 + unhex b], .clear) else none

/-- Model of `unescape` of `net/url` for the path and the fragment: the bytes with every
`%XX` decoded, or `none` for a malformed escape. -/
def unescape (s : String) : Option (List Nat) :=
  match (bytesOf s).foldl unescapeStep (some ([], .clear)) with
  | some (out, .clear) => some out
  | _ => none

/-- Model of `validEncoded` of `net/url`: the sub-delimiters, `:`, `@`, brackets and `%`
are accepted, and any other byte must be one that needs no escaping. -/
def validEncoded (s : String) (mode : Encoding) : Bool :=
  (bytesOf s).all (fun b => byteIn "!$&()*+,;=:@[]%" b || b = 39 || !shouldEscape b mode)

/-- Model of `(*url.URL).EscapedPath`: `RawPath` when it is a valid encoding of `Path`,
the path `*` as it is, and the escaped `Path` otherwise. -/
def EscapedPath (u : URL) : String :=
  if u.RawPath ≠ "" ∧ validEncoded u.RawPath .encodePath = true
      ∧ unescape u.RawPath = some (bytesOf u.Path) then u.RawPath
  else if u.Path = "*" then "*"
  else escape u.Path .encodePath

/-- Model of `(*url.URL).EscapedFragment`: `RawFragment` when it is a valid encoding of
`Fragment`, and the escaped `Fragment` otherwise. -/
def EscapedFragment (u : URL) : String :=
  if u.RawFragment ≠ "" ∧ validEncoded u.RawFragment .encodeFragment = true
      ∧ unescape u.RawFragment = some (bytesOf u.Fragment) then u.RawFragment
  else escape u.Fragment .encodeFragment

/-- Model of `(*url.Userinfo).String`: `username` or `username:password`, escaped. -/
def Userinfo.String (u : Userinfo) : String :=
  escape u.username .encodeUserPassword ++
    (if u.passwordSet = true then ":" ++ escape u.password .encodeUserPassword else "")

/-- Model of `(*url.URL).String` of the Go standard library: `scheme:opaque?query#fragment`
when `Opaque` is set, and otherwise `scheme://userinfo@host/path?query#fragment` with the
absent parts left out, the path taken from `EscapedPath`, and `./` put before a path
whose first segment has a colon when nothing precedes it. -/
def URL.String (u : URL) : String :=
  let scheme := if u.Scheme ≠ "" then u.Scheme ++ ":" else ""
  let path := EscapedPath u
  let authority :=
    if u.Scheme ≠ "" ∨ u.Host ≠ "" ∨ u.User ≠ none then
      if u.OmitHost = true ∧ u.Host = "" ∧ u.User = none then ""
      else
        (if u.Host ≠ "" ∨ u.Path ≠ "" ∨ u.User ≠ none then "//" else "") ++
        (match u.User with
          | some ui => ui.String ++ "@"
          | none => "") ++
        (if u.Host ≠ "" then escape u.Host .encodeHost else "")
    else ""
  let slash := if path ≠ "" ∧ path.data.head? ≠ some '/' ∧ u.Host ≠ "" then "/" else ""
  let dot :=
    if scheme ++ authority ++ slash = "" ∧ (path.data.takeWhile (· ≠ '/')).contains ':'
    then "./"
    else ""
  let rest := if u.Opaque ≠ "" then u.Opaque else authority ++ slash ++ dot ++ path
  let query := if u.ForceQuery = true ∨ u.RawQuery ≠ "" then "?" ++ u.RawQuery else ""
  let fragment := if u.Fragment ≠ "" then "#" ++ EscapedFragment u else ""
  scheme ++ rest ++ query ++ fragment

/-- Model of `NewLogEntry` of chi's default log formatter when the output is not a
terminal, so that no colour codes are written: the request id of the context in
brackets if there is one, then the quoted request line (byte 34 is the quote), then the
remote address. -/
def NewLogEntry (r : Request) : String :=
  let reqID := (r.Context.Value "RequestID").getD ""
  (if reqID ≠ "" then "[" ++ reqID ++ "] " else "") ++
  String.singleton (Char.ofNat 34) ++ r.Method ++ " " ++
  (if r.TLS = true then "https" else "http") ++ "://" ++ r.Host ++ r.RequestURI ++ " " ++
  r.Proto ++ String.singleton (Char.ofNat 34) ++ " " ++ "from " ++ r.RemoteAddr ++ " - "

/-- The attribute keys of the `net` namespace in `semconv` v1.4.0. -/
def netKeys : List String :=
  ["net.transport", "net.peer.ip", "net.peer.name", "net.peer.port",
   "net.host.ip", "net.host.name", "net.host.port"]

/-- The `net.transport` attribute `semconv` derives from the network name. -/
def netTransport (network : String) : KeyValue :=
  if network ∈ ["tcp", "tcp4", "tcp6"] then ⟨"net.transport", .Str "ip_tcp"⟩
  else if network ∈ ["udp", "udp4", "udp6"] then ⟨"net.transport", .Str "ip_udp"⟩
  else if network ∈ ["ip", "ip4", "ip6"] then ⟨"net.transport", .Str "ip"⟩
  else if network ∈ ["unix", "unixgram", "unixpacket"] then ⟨"net.transport", .Str "unix"⟩
  else ⟨"net.transport", .Str "other"⟩

/-- The attributes `semconv` emits for one address: IP, name and port, each only when
present. -/
def addrAttributes (ipKey nameKey portKey : String) (a : String × String × Nat) :
    List KeyValue :=
  (if a.1 ≠ "" then [⟨ipKey, .Str a.1⟩] else []) ++
  (if a.2.1 ≠ "" then [⟨nameKey, .Str a.2.1⟩] else []) ++
  (if a.2.2 ≠ 0 then [⟨portKey, .Int a.2.2⟩] else [])

/-- The first of the candidate hosts that yields an IP, a name or a port; the result for
the last candidate when none does. -/
def firstHost (hostIPNamePort : String → String × String × Nat) :
    List String → String × String × Nat
  | [] => ("", "", 0)
  | [h] => hostIPNamePort h
  | h :: hs =>
    let a := hostIPNamePort h
    if a.1 ≠ "" ∨ a.2.1 ≠ "" ∨ a.2.2 ≠ 0 then a else firstHost hostIPNamePort hs

/-- Go `Header.Get`: the first value stored under the key, empty when there is none. -/
def headerGet (h : List (String × String)) (key : String) : String :=
  ((h.find? (fun kv => kv.1 = key)).map Prod.snd).getD ""

/-- Model of `semconv.NetAttributesFromHTTPRequest` (v1.4.0): the transport, then the
peer taken from `RemoteAddr`, then the host taken from the first usable one of `Host`,
the `Host` header and `URL.Host`.  The address parser is a parameter. -/
def NetAttributesFromHTTPRequest (hostIPNamePort : String → String × String × Nat)
    (network : String) (request : Request) : List KeyValue :=
  [netTransport network] ++
  addrAttributes "net.peer.ip" "net.peer.name" "net.peer.port"
    (hostIPNamePort request.RemoteAddr) ++
  addrAttributes "net.host.ip" "net.host.name" "net.host.port"
    (firstHost hostIPNamePort [request.Host, headerGet request.Header "Host", request.URL.Host])

/-- Splits a list at every occurrence of a separator. -/
def splitAt (sep : Char) : List Char → List (List Char)
  | [] => [[]]
  | c :: cs =>
    if c = sep then [] :: splitAt sep cs
    else
      match splitAt sep cs with
      | [] => [[c]]
      | p :: ps => (c :: p) :: ps

/-- Value of a non-empty string of decimal digits. -/
def parseDecimal (cs : List Char) : Option Nat :=
  if cs ≠ [] ∧ cs.all Char.isDigit then
    some (cs.foldl (fun n c => 10 * n + (c.toNat - '0'.toNat)) 0)
  else none

/-- Whether a string is an IPv4 address as `net.ParseIP` of Go 1.17 and later accepts
it: four decimal fields of value at most 255, none with a leading zero. -/
def isIPv4 (cs : List Char) : Bool :=
  let parts := splitAt '.' cs
  parts.length = 4 ∧
    parts.all (fun p => (p.length = 1 ∨ p.head? ≠ some '0') ∧ (parseDecimal p).any (· ≤ 255))

/-- Model of the address parser of `semconv` for hosts that are names or IPv4 addresses,
written `host` or `host:port`: an address with exactly one colon is split there, any
other is taken whole; the host is an IP when it is an IPv4 address and a name otherwise;
the port is the part after the colon when it is a number below 65536.  IPv6 addresses,
with or without brackets, are not recognised: the model takes them for names. -/
def hostIPNamePort (hostWithPort : String) : String × String × Nat :=
  let parts := splitAt ':' hostWithPort.data
  let hostPart := if parts.length = 2 then parts.headD [] else hostWithPort.data
  let portPart := if parts.length = 2 then parts.getLastD [] else []
  let port :=
    match parseDecimal portPart with
    | some n => if n < 65536 then n else 0
    | none => 0
  if isIPv4 hostPart then (String.mk hostPart, "", port) else ("", String.mk hostPart, port)

/-- The library functions, as modelled above. -/
def goLib : Lib :=
  { URLString := URL.String
    NetAttributesFromHTTPRequest := NetAttributesFromHTTPRequest hostIPNamePort
    NewLogEntry := NewLogEntry }

/-! ## Concrete collaborators and inputs -/

/-- State of the recording tracer: the next span identifier, the spans ended and the
events recorded, in order. -/
structure Recorded where
  nextID : Nat
  ended : List Span
  events : List (Nat × String)
deriving DecidableEq, Repr

/-- A tracer in the manner of the SDK: a new span is a child of the span active in the
context, and becomes the active span of the context returned. -/
def recordingTracer : Tracer Recorded :=
  { Start := fun ctx _ _ s =>
      let span : Span := { SpanID := s.nextID, Parent := (SpanFromContext ctx).map Span.SpanID }
      ((Context.WithSpan ctx span, span), { s with nextID := s.nextID + 1 })
    End := fun span s => { s with ended := s.ended ++ [span] }
    AddEvent := fun span name _ s => { s with events := s.events ++ [(span.SpanID, name)] } }

/-- The initial state of the recording tracer. -/
def recorded₀ : Recorded := { nextID := 1, ended := [], events := [] }

/-- The response writer of the examples. -/
def w₀ : ResponseWriter := ResponseWriter.server 0

/-- The request `GET /` from a local client. -/
def getRoot : Request :=
  { Method := "GET"
    URL := { URL.zero with Path := "/" }
    Proto := "HTTP/1.1"
    Header := []
    Host := "localhost:3000"
    RemoteAddr := "127.0.0.1:50000"
    RequestURI := "/"
    TLS := false
    ctx := Context.Background }

/-- The request `GET /?a=1` from a local client. -/
def getRootQuery : Request :=
  { getRoot with
    URL := { URL.zero with Path := "/", RawQuery := "a=1" }
    RequestURI := "/?a=1" }

/-- A handler that panics at once. -/
def panicking : Handler Recorded :=
  fun _ _ s => { log := [], outcome := .panicked "boom", state := s }

/-- Inputs of a run in which everything succeeds and a stop signal arrives. -/
def cleanRun : Inputs :=
  { env := fun k => if k = "SENTRY_API_KEY" then some "secret" else none
    otlpNew := fun _ client => .ok { client := client }
    stopSignal := true
    srvShutdown := none
    tpShutdown := fun _ => none }

/-- Inputs of a run in which `srv.Shutdown` fails. -/
def srvShutdownFails : Inputs :=
  { cleanRun with srvShutdown := some "close tcp: use of closed network connection" }

/-- Inputs of a run without the credential: the variable is not set, and
`otlptrace.New`, which does not look at the headers, succeeds. -/
def noCredential : Inputs :=
  { cleanRun with env := fun _ => none }

/-- Inputs of a run in which `otlptrace.New` fails. -/
def exporterFails : Inputs :=
  { cleanRun with otlpNew := fun _ _ => .error "invalid endpoint" }

/-! ## Theorems -/

theorem ownCalls_append (l₁ l₂ : List Event) :
    ownCalls (l₁ ++ l₂) = ownCalls l₁ ++ ownCalls l₂ := by
  simp [ownCalls]

theorem ownCalls_map_lift (l : List Event) : ownCalls (l.map Event.lift) = [] := by
  simp [ownCalls, Event.lift]

/-- When a log splits into a part without `q` entries followed by a part without `p`
entries, every `p` entry comes before every `q` entry. -/
theorem allBefore_append {α : Type} (p q : α → Bool) (pre post : List α)
    (hpre : ∀ a ∈ pre, q a = false) (hpost : ∀ b ∈ post, p b = false) :
    AllBefore p q (pre ++ post) := by
  intro i j a b hi hj hp hq
  by_contra hij
  have hji : j ≤ i := Nat.le_of_not_lt hij
  by_cases hj' : j < pre.length
  · rw [List.getElem?_append_left hj'] at hj
    have hb : b ∈ pre := List.getElem?_mem hj
    rw [hpre b hb] at hq
    exact Bool.noConfusion hq
  · have hi' : pre.length ≤ i := Nat.le_trans (Nat.le_of_not_lt hj') hji
    rw [List.getElem?_append_right hi'] at hi
    have ha : a ∈ post := List.getElem?_mem hi
    rw [hpost a ha] at hp
    exact Bool.noConfusion hp

/-- When a log has no `q` entry, every `p` entry comes before every `q` entry. -/
theorem allBefore_of_none {α : Type} (p q : α → Bool) (log : List α)
    (h : ∀ a ∈ log, q a = false) : AllBefore p q log := by
  have hsplit := allBefore_append p q log [] h (by simp)
  simpa using hsplit

/-- The log of the middleware: its `Start`, the call of `next`, what `next` does, then
the deferred closure. -/
theorem MyMiddleware_log {σ : Type} (lib : Lib) (tracer : Tracer σ) (next : Handler σ)
    (w : ResponseWriter) (r : Request) (s : σ) :
    (MyMiddleware lib tracer next w r s).log =
      ([⟨0, .TracerStart r.Context (lib.URLString r.URL) (MyMiddleware.opts lib r)⟩,
        ⟨0, .ServeHTTP w (r.WithContext (MyMiddleware.started lib tracer r s).1.1)⟩]
        ++ (next w (r.WithContext (MyMiddleware.started lib tracer r s).1.1)
              (MyMiddleware.started lib tracer r s).2).log.map Event.lift
        ++ [⟨0, .Println "test"⟩])
      ++ [⟨0, .SpanEnd (MyMiddleware.started lib tracer r s).1.2⟩] := by
  simp [MyMiddleware, MyMiddleware.body, MyMiddleware.started, MyMiddleware.deferred,
    Body.exit, runDeferred]

/-- C1: for every request and every wrapped handler, whatever its outcome (return or
panic), the handler built by MyMiddleware calls tracer.Start exactly once, calls End
exactly once, on the span that Start returned, and that End comes after the call of
next.ServeHTTP and after every call made inside it; the outcome of next is passed on. -/
theorem MyMiddleware_starts_once_ends_once_after_next {σ : Type} (lib : Lib)
    (tracer : Tracer σ) (next : Handler σ) (w : ResponseWriter) (r : Request) (s : σ) :
    (ownCalls (MyMiddleware lib tracer next w r s).log).filter Call.isTracerStart
        = [Call.TracerStart r.Context (lib.URLString r.URL) (MyMiddleware.opts lib r)]
    ∧ (ownCalls (MyMiddleware lib tracer next w r s).log).filter Call.isSpanEnd
        = [Call.SpanEnd (MyMiddleware.started lib tracer r s).1.2]
    ∧ (ownCalls (MyMiddleware lib tracer next w r s).log).filter Call.isServeHTTP
        = [Call.ServeHTTP w (r.WithContext (MyMiddleware.started lib tracer r s).1.1)]
    ∧ (∀ e ∈ (next w (r.WithContext (MyMiddleware.started lib tracer r s).1.1)
          (MyMiddleware.started lib tracer r s).2).log,
        e.lift ∈ (MyMiddleware lib tracer next w r s).log)
    ∧ AllBefore (fun e => decide (0 < e.depth) || e.call.isServeHTTP)
        (fun e => decide (e.depth = 0) && e.call.isSpanEnd)
        (MyMiddleware lib tracer next w r s).log
    ∧ (MyMiddleware lib tracer next w r s).outcome
        = (next w (r.WithContext (MyMiddleware.started lib tracer r s).1.1)
            (MyMiddleware.started lib tracer r s).2).outcome := by
  refine ⟨?_, ?_, ?_, ?_, ?_, ?_⟩
  · rw [MyMiddleware_log, ownCalls_append, ownCalls_append, ownCalls_append,
      ownCalls_map_lift]
    simp [ownCalls, Call.isTracerStart]
  · rw [MyMiddleware_log, ownCalls_append, ownCalls_append, ownCalls_append,
      ownCalls_map_lift]
    simp [ownCalls, Call.isSpanEnd]
  · rw [MyMiddleware_log, ownCalls_append, ownCalls_append, ownCalls_append,
      ownCalls_map_lift]
    simp [ownCalls, Call.isServeHTTP]
  · intro e he
    rw [MyMiddleware_log]
    simp only [List.mem_append, List.mem_map]
    exact Or.inl (Or.inl (Or.inr ⟨e, he, rfl⟩))
  · rw [MyMiddleware_log]
    apply allBefore_append
    · intro a ha
      simp only [List.mem_append, List.mem_map, List.mem_cons, List.mem_singleton,
        List.not_mem_nil, or_false] at ha
      rcases ha with ((rfl | rfl) | ⟨e, _, rfl⟩) | rfl
      · simp [Call.isSpanEnd]
      · simp [Call.isSpanEnd]
      · simp [Event.lift]
      · simp [Call.isSpanEnd]
    · intro b hb
      simp only [List.mem_singleton] at hb
      subst hb
      simp [Call.isServeHTTP]
  · simp [MyMiddleware, MyMiddleware.body, MyMiddleware.started, MyMiddleware.opts, Body.exit]

/-- Witness of C1 on a handler that panics: the middleware still ends the root span,
once, and the panic goes on. -/
theorem MyMiddleware_ends_span_when_next_panics :
    (ownCalls (MyMiddleware goLib recordingTracer panicking w₀ getRoot recorded₀).log).filter
        Call.isSpanEnd = [Call.SpanEnd { SpanID := 1, Parent := none }]
    ∧ (MyMiddleware goLib recordingTracer panicking w₀ getRoot recorded₀).outcome
        = Outcome.panicked "boom"
    ∧ (MyMiddleware goLib recordingTracer panicking w₀ getRoot recorded₀).state.ended
        = [{ SpanID := 1, Parent := none }] :=
  ⟨(MyMiddleware_starts_once_ends_once_after_next goLib recordingTracer panicking w₀ getRoot
      recorded₀).2.1,
   by decide, by decide⟩

/-- The log of the route handler: its six calls, then the deferred `span.End()`. -/
theorem rootHandler_log {σ : Type} (lib : Lib) (tracer : Tracer σ)
    (w : ResponseWriter) (r : Request) (s : σ) :
    (rootHandler lib tracer w r s).log =
      [ ⟨0, .Sleep 100⟩,
        ⟨0, .TracerStart r.Context "child" []⟩,
        ⟨0, .SpanAddEvent (rootHandler.started tracer r s).1.2 "Acquiring lock"
              [SpanOption.WithAttributes (lib.NetAttributesFromHTTPRequest "tcp" r)]⟩,
        ⟨0, .Sleep 200⟩,
        ⟨0, .SpanAddEvent (rootHandler.started tracer r s).1.2 "Unlocking" []⟩,
        ⟨0, .Write w "welcome"⟩,
        ⟨0, .SpanEnd (rootHandler.started tracer r s).1.2⟩ ] := by
  simp [rootHandler, rootHandler.body, rootHandler.started, Body.exit, runDeferred]

/-- The log of the logger: the call of `next` with the wrapped writer and the extended
request, what `next` does, then the deferred writing of the entry. -/
theorem Logger_log {σ : Type} (lib : Lib) (next : Handler σ)
    (w : ResponseWriter) (r : Request) (s : σ) :
    (Logger lib next w r s).log =
      [⟨0, .ServeHTTP (ResponseWriter.wrapped w)
            (r.WithContext (Context.WithValue r.Context "LogEntry" (lib.NewLogEntry r)))⟩]
        ++ (next (ResponseWriter.wrapped w)
              (r.WithContext (Context.WithValue r.Context "LogEntry" (lib.NewLogEntry r)))
              s).log.map Event.lift
        ++ [⟨0, .LogEntryWrite (lib.NewLogEntry r)⟩] := by
  simp [Logger, Body.exit, runDeferred]

/-- The log of the chain: the middleware's `Start` and call of the logger, the logger's
call of the route handler, the route handler's calls two levels down, then the deferred
calls of the route handler, of the logger and of the middleware. -/
theorem routeChain_log {σ : Type} (lib : Lib) (tracer : Tracer σ)
    (w : ResponseWriter) (r : Request) (s : σ) :
    (routeChain lib tracer w r s).log =
      [ ⟨0, .TracerStart r.Context (lib.URLString r.URL) (MyMiddleware.opts lib r)⟩,
        ⟨0, .ServeHTTP w (r.WithContext (MyMiddleware.started lib tracer r s).1.1)⟩,
        ⟨1, .ServeHTTP (ResponseWriter.wrapped w)
              (r.WithContext (routeChain.handlerContext lib tracer r s))⟩,
        ⟨2, .Sleep 100⟩,
        ⟨2, .TracerStart (routeChain.handlerContext lib tracer r s) "child" []⟩,
        ⟨2, .SpanAddEvent
              (tracer.Start (routeChain.handlerContext lib tracer r s) "child" []
                (MyMiddleware.started lib tracer r s).2).1.2
              "Acquiring lock"
              [SpanOption.WithAttributes (lib.NetAttributesFromHTTPRequest "tcp"
                (r.WithContext (routeChain.handlerContext lib tracer r s)))]⟩,
        ⟨2, .Sleep 200⟩,
        ⟨2, .SpanAddEvent
              (tracer.Start (routeChain.handlerContext lib tracer r s) "child" []
                (MyMiddleware.started lib tracer r s).2).1.2
              "Unlocking" []⟩,
        ⟨2, .Write (ResponseWriter.wrapped w) "welcome"⟩ ] ++
      [ ⟨2, .SpanEnd
              (tracer.Start (routeChain.handlerContext lib tracer r s) "child" []
                (MyMiddleware.started lib tracer r s).2).1.2⟩,
        ⟨1, .LogEntryWrite
              (lib.NewLogEntry (r.WithContext (MyMiddleware.started lib tracer r s).1.1))⟩,
        ⟨0, .Println "test"⟩,
        ⟨0, .SpanEnd (MyMiddleware.started lib tracer r s).1.2⟩ ] := by
  unfold routeChain
  rw [MyMiddleware_log, Logger_log, rootHandler_log]
  simp [Event.lift, rootHandler.started, routeChain.handlerContext, Request.Context,
    Request.WithContext]

/-- C6: for every request it serves, the handler of GET / writes exactly the body
"welcome" and never sets a status (so the response is 200 with body "welcome"), starts
exactly one span, named "child", records on it exactly the two events "Acquiring lock"
and "Unlocking", in that order, ends that span exactly once, and returns. -/
theorem rootHandler_writes_welcome_in_child_span {σ : Type} (lib : Lib)
    (tracer : Tracer σ) (w : ResponseWriter) (r : Request) (s : σ) :
    ((rootHandler lib tracer w r s).log.map Event.call).filter
        (fun c => c.isWrite || c.isWriteHeader) = [Call.Write w "welcome"]
    ∧ responseOf w (rootHandler lib tracer w r s).log = { status := some 200, body := "welcome" }
    ∧ ((rootHandler lib tracer w r s).log.map Event.call).filter Call.isTracerStart
        = [Call.TracerStart r.Context "child" []]
    ∧ ((rootHandler lib tracer w r s).log.map Event.call).filter Call.isSpanAddEvent
        = [ Call.SpanAddEvent (rootHandler.started tracer r s).1.2 "Acquiring lock"
              [SpanOption.WithAttributes (lib.NetAttributesFromHTTPRequest "tcp" r)],
            Call.SpanAddEvent (rootHandler.started tracer r s).1.2 "Unlocking" [] ]
    ∧ ((rootHandler lib tracer w r s).log.map Event.call).filter Call.isSpanEnd
        = [Call.SpanEnd (rootHandler.started tracer r s).1.2]
    ∧ (rootHandler lib tracer w r s).outcome = Outcome.returned := by
  rw [rootHandler_log]
  refine ⟨?_, ?_, ?_, ?_, ?_, ?_⟩
  · simp [Call.isWrite, Call.isWriteHeader]
  · simp [responseOf, Response.apply]
  · simp [Call.isTracerStart]
  · simp [Call.isSpanAddEvent]
  · simp [Call.isSpanEnd]
  · simp [rootHandler, rootHandler.body, Body.exit]

/-- The recording tracer parents on the active span. -/
theorem recordingTracer_parentsOnActiveSpan : recordingTracer.ParentsOnActiveSpan := by
  intro ctx name opts s
  simp [recordingTracer, SpanFromContext]

/-- C2, as stated, fails: for `GET /` the root `Start` returns the background context
with the root span, but the span named "child" is started from another context, the one
the logger made out of it by adding its entry. -/
theorem child_started_from_extended_context :
    (MyMiddleware.started goLib recordingTracer getRoot recorded₀).1.1
        = Context.WithSpan Context.Background { SpanID := 1, Parent := none }
    ∧ ((routeChain goLib recordingTracer w₀ getRoot recorded₀).log.map Event.call).filterMap
          (fun c => if c.spanName? = some "child" then c.startContext? else none)
        = [ Context.WithValue
              (Context.WithSpan Context.Background { SpanID := 1, Parent := none })
              "LogEntry"
              (goLib.NewLogEntry (getRoot.WithContext
                (Context.WithSpan Context.Background { SpanID := 1, Parent := none }))) ]
    ∧ ((routeChain goLib recordingTracer w₀ getRoot recorded₀).log.map Event.call).filterMap
          (fun c => if c.spanName? = some "child" then c.startContext? else none)
        ≠ [(MyMiddleware.started goLib recordingTracer getRoot recorded₀).1.1] := by
  decide

/-- C2, amended: in the chain MyMiddleware -> logger -> route handler, the only spans
started are the root span and, two levels down, the span named "child"; the context
passed to the Start of "child" is the context that the Start of the root span returned
for that request, extended by the logger with one value, so the same span is active in
both; the spans ended are that child and then the root; hence, with a tracer that
parents a new span on the span active in the given context, the parent id of the child
span is the id of the root span. -/
theorem child_span_parented_on_root_span {σ : Type} (lib : Lib) (tracer : Tracer σ)
    (w : ResponseWriter) (r : Request) (s : σ) :
    (routeChain lib tracer w r s).log.filter (fun e => e.call.isTracerStart)
        = [ ⟨0, .TracerStart r.Context (lib.URLString r.URL) (MyMiddleware.opts lib r)⟩,
            ⟨2, .TracerStart (routeChain.handlerContext lib tracer r s) "child" []⟩ ]
    ∧ routeChain.handlerContext lib tracer r s
        = Context.WithValue (MyMiddleware.started lib tracer r s).1.1 "LogEntry"
            (lib.NewLogEntry (r.WithContext (MyMiddleware.started lib tracer r s).1.1))
    ∧ SpanFromContext (routeChain.handlerContext lib tracer r s)
        = SpanFromContext (MyMiddleware.started lib tracer r s).1.1
    ∧ (routeChain lib tracer w r s).log.filter (fun e => e.call.isSpanEnd)
        = [ ⟨2, .SpanEnd (tracer.Start (routeChain.handlerContext lib tracer r s) "child" []
                  (MyMiddleware.started lib tracer r s).2).1.2⟩,
            ⟨0, .SpanEnd (MyMiddleware.started lib tracer r s).1.2⟩ ]
    ∧ (tracer.ParentsOnActiveSpan →
        (tracer.Start (routeChain.handlerContext lib tracer r s) "child" []
            (MyMiddleware.started lib tracer r s).2).1.2.Parent
          = some (MyMiddleware.started lib tracer r s).1.2.SpanID) := by
  refine ⟨?_, rfl, rfl, ?_, ?_⟩
  · rw [routeChain_log]
    simp [Call.isTracerStart]
  · rw [routeChain_log]
    simp [Call.isSpanEnd]
  · intro h
    have hroot := (h r.Context (lib.URLString r.URL) (MyMiddleware.opts lib r) s).2
    have hchild := (h (routeChain.handlerContext lib tracer r s) "child" []
      (MyMiddleware.started lib tracer r s).2).1
    rw [hchild]
    have hctx : SpanFromContext (routeChain.handlerContext lib tracer r s)
        = SpanFromContext (MyMiddleware.started lib tracer r s).1.1 := rfl
    rw [hctx]
    unfold MyMiddleware.started
    rw [hroot]
    rfl

/-- Witness of C2 amended, on the recording tracer and the request `GET /`: the chain
ends the child span, of identifier 2 and parent 1, and then the root span, of
identifier 1. -/
theorem child_span_parented_on_root_span_witness :
    recordingTracer.ParentsOnActiveSpan
    ∧ (routeChain goLib recordingTracer w₀ getRoot recorded₀).log.filter
          (fun e => e.call.isSpanEnd)
        = [ ⟨2, .SpanEnd { SpanID := 2, Parent := some 1 }⟩,
            ⟨0, .SpanEnd { SpanID := 1, Parent := none }⟩ ]
    ∧ (recordingTracer.Start (routeChain.handlerContext goLib recordingTracer getRoot recorded₀)
          "child" [] (MyMiddleware.started goLib recordingTracer getRoot recorded₀).2).1.2.Parent
        = some (MyMiddleware.started goLib recordingTracer getRoot recorded₀).1.2.SpanID :=
  ⟨recordingTracer_parentsOnActiveSpan,
   (child_span_parented_on_root_span goLib recordingTracer w₀ getRoot recorded₀).2.2.2.1,
   (child_span_parented_on_root_span goLib recordingTracer w₀ getRoot recorded₀).2.2.2.2
     recordingTracer_parentsOnActiveSpan⟩

/-- C7, as stated, fails: for `GET /?a=1` the root span is named `/?a=1`, which is not
the path `/` of the request. -/
theorem root_span_name_differs_from_path_with_query :
    startedNames (MyMiddleware goLib recordingTracer (rootHandler goLib recordingTracer)
        w₀ getRootQuery recorded₀).log = ["/?a=1"]
    ∧ getRootQuery.URL.Path = "/"
    ∧ startedNames (MyMiddleware goLib recordingTracer (rootHandler goLib recordingTracer)
        w₀ getRootQuery recorded₀).log ≠ [getRootQuery.URL.Path] := by
  decide

/-- C7, amended: for every inbound request the root span started by MyMiddleware is
named by `r.URL.String()`, the reassembled URL of the request; for `GET /` that is the
path `/` of the request. -/
theorem root_span_named_by_url_string {σ : Type} (lib : Lib) (tracer : Tracer σ)
    (next : Handler σ) (w : ResponseWriter) (r : Request) (s : σ) :
    startedNames (MyMiddleware lib tracer next w r s).log = [lib.URLString r.URL]
    ∧ startedNames (MyMiddleware goLib tracer next w getRoot s).log = [getRoot.URL.Path] := by
  have hnames : ∀ (l : Lib) (q : Request),
      startedNames (MyMiddleware l tracer next w q s).log = [l.URLString q.URL] := by
    intro l q
    unfold startedNames
    rw [MyMiddleware_log, ownCalls_append, ownCalls_append, ownCalls_append,
      ownCalls_map_lift]
    simp [ownCalls, Call.spanName?]
  refine ⟨hnames lib r, ?_⟩
  rw [hnames]
  decide

/-- C8, as stated, fails: for `GET /` the body is written (entry 8 of the log) before
the child span is ended (entry 9) and before the root span is ended (entry 12), so the
span ends do not all precede the write. -/
theorem spans_not_ended_before_body_written :
    (routeChain goLib recordingTracer w₀ getRoot recorded₀).log[8]?
        = some ⟨2, .Write (ResponseWriter.wrapped w₀) "welcome"⟩
    ∧ (routeChain goLib recordingTracer w₀ getRoot recorded₀).log[9]?
        = some ⟨2, .SpanEnd { SpanID := 2, Parent := some 1 }⟩
    ∧ (routeChain goLib recordingTracer w₀ getRoot recorded₀).log[12]?
        = some ⟨0, .SpanEnd { SpanID := 1, Parent := none }⟩
    ∧ ¬ AllBefore (fun e => e.call.isSpanEnd) (fun e => e.call.isWrite)
        (routeChain goLib recordingTracer w₀ getRoot recorded₀).log := by
  refine ⟨by decide, by decide, by decide, ?_⟩
  intro h
  have hlt := h 9 8 ⟨2, .SpanEnd { SpanID := 2, Parent := some 1 }⟩
    ⟨2, .Write (ResponseWriter.wrapped w₀) "welcome"⟩ (by decide) (by decide) rfl rfl
  exact absurd hlt (by decide)

/-- C8, amended: for every request served through MyMiddleware, the logger and the route
handler, the body "welcome" is written first, to the writer the logger wrapped around
the ResponseWriter; the "child" span and then the root span are ended after that write,
and both are ended within the chain, that is before it returns to the server. -/
theorem spans_ended_after_body_written {σ : Type} (lib : Lib) (tracer : Tracer σ)
    (w : ResponseWriter) (r : Request) (s : σ) :
    (routeChain lib tracer w r s).log.filter (fun e => e.call.isWrite || e.call.isSpanEnd)
        = [ ⟨2, .Write (ResponseWriter.wrapped w) "welcome"⟩,
            ⟨2, .SpanEnd (tracer.Start (routeChain.handlerContext lib tracer r s) "child" []
                  (MyMiddleware.started lib tracer r s).2).1.2⟩,
            ⟨0, .SpanEnd (MyMiddleware.started lib tracer r s).1.2⟩ ]
    ∧ AllBefore (fun e => e.call.isWrite) (fun e => e.call.isSpanEnd)
        (routeChain lib tracer w r s).log
    ∧ (routeChain lib tracer w r s).outcome = Outcome.returned := by
  refine ⟨?_, ?_, ?_⟩
  · rw [routeChain_log]
    simp [Call.isWrite, Call.isSpanEnd]
  · rw [routeChain_log]
    apply allBefore_append
    · simp [Call.isSpanEnd]
    · simp [Call.isWrite]
  · simp [routeChain, MyMiddleware, MyMiddleware.body, Body.exit, Logger, rootHandler,
      rootHandler.body]

/-- C9, as stated, fails: for `GET /` the root span is started with the five network
attributes of the request, and none of them has the key `http.method` or `http.target`
or carries the method `GET` or the path `/`. -/
theorem root_span_attributes_lack_method_and_path :
    ((ownCalls (routeChain goLib recordingTracer w₀ getRoot recorded₀).log).filter
        Call.isTracerStart).map Call.startAttributes
      = [[ ⟨"net.transport", .Str "ip_tcp"⟩,
           ⟨"net.peer.ip", .Str "127.0.0.1"⟩,
           ⟨"net.peer.port", .Int 50000⟩,
           ⟨"net.host.name", .Str "localhost"⟩,
           ⟨"net.host.port", .Int 3000⟩ ]]
    ∧ ¬ (∃ kv ∈ goLib.NetAttributesFromHTTPRequest "tcp" getRoot,
          kv.Key = "http.method" ∨ kv.Value = .Str getRoot.Method)
    ∧ ¬ (∃ kv ∈ goLib.NetAttributesFromHTTPRequest "tcp" getRoot,
          kv.Key = "http.target" ∨ kv.Value = .Str getRoot.URL.Path) := by
  decide

/-- Every attribute of the `semconv` model has a key of the `net` namespace, whatever
the address parser. -/
theorem netAttributes_keys (parse : String → String × String × Nat) (network : String)
    (r : Request) :
    (NetAttributesFromHTTPRequest parse network r).all (fun kv => decide (kv.Key ∈ netKeys))
      = true := by
  simp only [NetAttributesFromHTTPRequest, addrAttributes, netTransport, List.all_append,
    Bool.and_eq_true]
  refine ⟨⟨?_, ?_⟩, ?_⟩
  · split_ifs <;> simp [netKeys]
  · split_ifs <;> simp [netKeys]
  · split_ifs <;> simp [netKeys]

/-- C9, amended: for every handled request MyMiddleware starts exactly one root span,
and starts it with exactly the attributes that
`semconv.NetAttributesFromHTTPRequest("tcp", r)` returns; these are attributes of the
`net` namespace (transport, peer, host), and MyMiddleware adds no attribute of its own
for the request method or path. -/
theorem root_span_started_once_with_net_attributes {σ : Type} (lib : Lib)
    (tracer : Tracer σ) (next : Handler σ) (w : ResponseWriter) (r : Request) (s : σ)
    (parse : String → String × String × Nat) :
    ((ownCalls (MyMiddleware lib tracer next w r s).log).filter Call.isTracerStart).map
        Call.startAttributes = [lib.NetAttributesFromHTTPRequest "tcp" r]
    ∧ (NetAttributesFromHTTPRequest parse "tcp" r).all (fun kv => decide (kv.Key ∈ netKeys))
        = true
    ∧ "http.method" ∉ netKeys ∧ "http.target" ∉ netKeys := by
  refine ⟨?_, netAttributes_keys parse "tcp" r, by decide, by decide⟩
  rw [MyMiddleware_log, ownCalls_append, ownCalls_append, ownCalls_append,
    ownCalls_map_lift]
  simp [ownCalls, Call.isTracerStart, Call.startAttributes, MyMiddleware.opts]

/-- The steps of `main` when the exporter is built and a stop signal arrives: start-up,
then `srv.Shutdown`, then `tp.Shutdown`, and only then, if `tp.Shutdown` succeeded, the
deferred `tp.ForceFlush`. -/
theorem main_steps_after_signal (i : Inputs) (exporter : Exporter)
    (hnew : i.otlpNew Context.Background (CreateOTLPNewRelic.client i) = .ok exporter)
    (hsig : i.stopSignal = true) :
    (main i).steps =
      [ Step.SignalNotify ["interrupt", "terminated", "killed"],
        Step.Getenv "SENTRY_API_KEY",
        Step.NewClient [("api-key", Getenv i.env "SENTRY_API_KEY")],
        Step.OtlpNew Context.Background (CreateOTLPNewRelic.client i),
        Step.NewTracerProvider exporter Resource,
        Step.SetTracerProvider,
        Step.GetTracer "",
        Step.NewRouter,
        Step.Use "MyMiddleware",
        Step.Use "middleware.Logger",
        Step.Get "/",
        Step.GoListenAndServe "0.0.0.0:3000",
        Step.ReceiveStopSignal,
        Step.Println "Shutting down the server... ⌛️",
        Step.SrvShutdown Context.Background ] ++
      (match i.srvShutdown with
        | some err => [Step.Println err]
        | none => []) ++
      [Step.TpShutdown Context.Background] ++
      (match i.tpShutdown Context.Background with
        | some err => [Step.LogFatal err]
        | none => [Step.Println "Shutting down the server...Done ✅",
                   Step.TpForceFlush Context.Background]) := by
  simp only [CreateOTLPNewRelic.client] at hnew
  cases hs : i.srvShutdown <;> cases ht : i.tpShutdown Context.Background <;>
    simp [main, CreateOTLPNewRelic, main.shutdown, hnew, hsig, hs, ht,
      CreateOTLPNewRelic.client]

/-- The steps of `main` when `otlptrace.New` fails: `log.Fatalf` is the last of them. -/
theorem main_steps_exporter_fails (i : Inputs) (err : String)
    (hnew : i.otlpNew Context.Background (CreateOTLPNewRelic.client i) = .error err) :
    main i =
      { steps :=
          [ Step.SignalNotify ["interrupt", "terminated", "killed"],
            Step.Getenv "SENTRY_API_KEY",
            Step.NewClient [("api-key", Getenv i.env "SENTRY_API_KEY")],
            Step.OtlpNew Context.Background (CreateOTLPNewRelic.client i),
            Step.LogFatal ("creating OTLP trace exporter: " ++ err) ]
        exit := Exit.status 1 } := by
  simp only [CreateOTLPNewRelic.client] at hnew
  simp [main, CreateOTLPNewRelic, hnew, CreateOTLPNewRelic.client]

/-- The steps of `main` when the exporter is built and no stop signal ever arrives. -/
theorem main_steps_blocked (i : Inputs) (exporter : Exporter)
    (hnew : i.otlpNew Context.Background (CreateOTLPNewRelic.client i) = .ok exporter)
    (hsig : i.stopSignal = false) :
    main i =
      { steps :=
          [ Step.SignalNotify ["interrupt", "terminated", "killed"],
            Step.Getenv "SENTRY_API_KEY",
            Step.NewClient [("api-key", Getenv i.env "SENTRY_API_KEY")],
            Step.OtlpNew Context.Background (CreateOTLPNewRelic.client i),
            Step.NewTracerProvider exporter Resource,
            Step.SetTracerProvider,
            Step.GetTracer "",
            Step.NewRouter,
            Step.Use "MyMiddleware",
            Step.Use "middleware.Logger",
            Step.Get "/",
            Step.GoListenAndServe "0.0.0.0:3000",
            Step.ReceiveStopSignal ]
        exit := Exit.blocked } := by
  simp only [CreateOTLPNewRelic.client] at hnew
  simp [main, CreateOTLPNewRelic, hnew, hsig, CreateOTLPNewRelic.client]

/-- In every run of `main`, whatever its inputs, a `tp.ForceFlush` that happens comes
after every `tp.Shutdown`. -/
theorem main_forceFlush_after_tpShutdown (i : Inputs) :
    AllBefore Step.isTpShutdown Step.isTpForceFlush (main i).steps := by
  cases hnew : i.otlpNew Context.Background (CreateOTLPNewRelic.client i) with
  | error err =>
    rw [main_steps_exporter_fails i err hnew]
    apply allBefore_of_none
    simp [Step.isTpForceFlush]
  | ok exporter =>
    cases hsig : i.stopSignal with
    | false =>
      rw [main_steps_blocked i exporter hnew hsig]
      apply allBefore_of_none
      simp [Step.isTpForceFlush]
    | true =>
      rw [main_steps_after_signal i exporter hnew hsig]
      apply allBefore_append
      · cases hs : i.srvShutdown <;> simp [Step.isTpForceFlush]
      · cases ht : i.tpShutdown Context.Background <;> simp [Step.isTpShutdown]

/-- C3 fails on the code: in the run `cleanRun`, which receives a stop signal and in
which every stage succeeds, the stages run in the order `srv.Shutdown`, `tp.Shutdown`,
`tp.ForceFlush`: the flush deferred at line 96 is step 17, after the provider was shut
down at step 15, so it does not precede the shutdown. -/
theorem main_flushes_after_provider_shutdown :
    (main cleanRun).steps.filter
        (fun st => st.isSrvShutdown || st.isTpShutdown || st.isTpForceFlush)
      = [ Step.SrvShutdown Context.Background,
          Step.TpShutdown Context.Background,
          Step.TpForceFlush Context.Background ]
    ∧ (main cleanRun).steps[15]? = some (Step.TpShutdown Context.Background)
    ∧ (main cleanRun).steps[17]? = some (Step.TpForceFlush Context.Background)
    ∧ ¬ AllBefore Step.isTpForceFlush Step.isTpShutdown (main cleanRun).steps
    ∧ (main cleanRun).exit = Exit.status 0 := by
  refine ⟨by decide, by decide, by decide, ?_, by decide⟩
  intro h
  have hlt := h 17 15 (Step.TpForceFlush Context.Background)
    (Step.TpShutdown Context.Background) (by decide) (by decide) rfl rfl
  exact absurd hlt (by decide)

/-- When `tp.Shutdown` fails after a stop signal, `log.Fatal` ends the process with
status 1 and the deferred `tp.ForceFlush` never runs. -/
theorem main_no_flush_when_tpShutdown_fails (i : Inputs) (exporter : Exporter)
    (err : String)
    (hnew : i.otlpNew Context.Background (CreateOTLPNewRelic.client i) = .ok exporter)
    (hsig : i.stopSignal = true)
    (htp : i.tpShutdown Context.Background = some err) :
    (main i).steps.filter Step.isTpForceFlush = []
    ∧ (main i).steps.getLast? = some (Step.LogFatal err) := by
  rw [main_steps_after_signal i exporter hnew hsig, htp]
  cases hs : i.srvShutdown <;> simp [Step.isTpForceFlush]

/-- After a stop signal both `srv.Shutdown` and `tp.Shutdown` are called, whatever
`srv.Shutdown` returns. -/
theorem main_calls_both_shutdowns (i : Inputs) (exporter : Exporter)
    (hnew : i.otlpNew Context.Background (CreateOTLPNewRelic.client i) = .ok exporter)
    (hsig : i.stopSignal = true) :
    (main i).steps.filter (fun st => st.isSrvShutdown || st.isTpShutdown)
      = [Step.SrvShutdown Context.Background, Step.TpShutdown Context.Background] := by
  rw [main_steps_after_signal i exporter hnew hsig]
  cases hs : i.srvShutdown <;> cases ht : i.tpShutdown Context.Background <;>
    simp [Step.isSrvShutdown, Step.isTpShutdown]

/-- C4: in the shutdown sequence of `main`, reached when the exporter was built and a
stop signal arrives, with a provider whose shutdown fails only with the error of its
context: whatever `srv.Shutdown` returns, the stages `srv.Shutdown`, `tp.Shutdown` and
`tp.ForceFlush` are all called, an error of `srv.Shutdown` is printed and stops nothing,
nothing fatal is logged, and the process then ends with status 0.  The error branch of
`tp.Shutdown` (lines 135-137) does not run, its context being the background context. -/
theorem shutdown_stages_all_run (i : Inputs) (exporter : Exporter)
    (hnew : i.otlpNew Context.Background (CreateOTLPNewRelic.client i) = .ok exporter)
    (hsig : i.stopSignal = true) (hsdk : i.ShutdownFailsOnlyWithContext) :
    (main i).steps.filter
        (fun st => st.isSrvShutdown || st.isTpShutdown || st.isTpForceFlush)
      = [ Step.SrvShutdown Context.Background,
          Step.TpShutdown Context.Background,
          Step.TpForceFlush Context.Background ]
    ∧ (main i).steps.drop 13
      = [ Step.Println "Shutting down the server... ⌛️",
          Step.SrvShutdown Context.Background ] ++
        (match i.srvShutdown with
          | some err => [Step.Println err]
          | none => []) ++
        [ Step.TpShutdown Context.Background,
          Step.Println "Shutting down the server...Done ✅",
          Step.TpForceFlush Context.Background ]
    ∧ (main i).steps.filter Step.isLogFatal = []
    ∧ (main i).exit = Exit.status 0 := by
  have htp : i.tpShutdown Context.Background = none := hsdk Context.Background rfl
  have hexit : (main i).exit = Exit.status 0 := by
    simp only [CreateOTLPNewRelic.client] at hnew
    cases hs : i.srvShutdown <;>
      simp [main, CreateOTLPNewRelic, main.shutdown, hnew, hsig, hs, htp,
        CreateOTLPNewRelic.client]
  rw [main_steps_after_signal i exporter hnew hsig, htp]
  refine ⟨?_, ?_, ?_, hexit⟩
  · cases hs : i.srvShutdown <;>
      simp [Step.isSrvShutdown, Step.isTpShutdown, Step.isTpForceFlush]
  · cases hs : i.srvShutdown <;> simp
  · cases hs : i.srvShutdown <;> simp [Step.isLogFatal]

/-- Witness of C4 on the run `srvShutdownFails`: `srv.Shutdown` returns an error, which
is printed, and `tp.Shutdown` and `tp.ForceFlush` are still called. -/
theorem shutdown_stages_all_run_witness :
    srvShutdownFails.otlpNew Context.Background (CreateOTLPNewRelic.client srvShutdownFails)
        = .ok { client := CreateOTLPNewRelic.client srvShutdownFails }
    ∧ srvShutdownFails.stopSignal = true
    ∧ srvShutdownFails.ShutdownFailsOnlyWithContext
    ∧ (main srvShutdownFails).steps.drop 13
        = [ Step.Println "Shutting down the server... ⌛️",
            Step.SrvShutdown Context.Background,
            Step.Println "close tcp: use of closed network connection",
            Step.TpShutdown Context.Background,
            Step.Println "Shutting down the server...Done ✅",
            Step.TpForceFlush Context.Background ]
    ∧ (main srvShutdownFails).exit = Exit.status 0 :=
  ⟨rfl, rfl, fun _ _ => rfl,
   (shutdown_stages_all_run srvShutdownFails
      { client := CreateOTLPNewRelic.client srvShutdownFails } rfl rfl (fun _ _ => rfl)).2.1,
   (shutdown_stages_all_run srvShutdownFails
      { client := CreateOTLPNewRelic.client srvShutdownFails } rfl rfl
      (fun _ _ => rfl)).2.2.2⟩

/-- C5, as stated, fails: in the run `noCredential` the variable SENTRY_API_KEY is not
set, the client is built with an empty `api-key` header, `otlptrace.New` succeeds, the
goroutine calling `srv.ListenAndServe` is started and nothing fatal is logged. -/
theorem listener_started_without_credential :
    noCredential.env "SENTRY_API_KEY" = none
    ∧ Step.NewClient [("api-key", "")] ∈ (main noCredential).steps
    ∧ Step.GoListenAndServe "0.0.0.0:3000" ∈ (main noCredential).steps
    ∧ (main noCredential).steps.filter Step.isLogFatal = []
    ∧ (main noCredential).exit = Exit.status 0 := by
  decide

/-- C5, amended: the credential is read with `os.Getenv` and passed on, unchecked, as
the `api-key` header of the client, empty when SENTRY_API_KEY is not set.  If
`otlptrace.New` returns an error for that client, the process logs it with `log.Fatalf`
and ends with status 1 without ever starting the goroutine that calls
`srv.ListenAndServe`; if it returns an exporter, that goroutine is started. -/
theorem main_fatal_before_listen_iff_exporter_fails (i : Inputs) :
    CreateOTLPNewRelic.client i
      = { headers := [("api-key", (i.env "SENTRY_API_KEY").getD "")] }
    ∧ (match i.otlpNew Context.Background (CreateOTLPNewRelic.client i) with
       | .error err =>
          (main i).exit = Exit.status 1
          ∧ (main i).steps.getLast? = some (Step.LogFatal ("creating OTLP trace exporter: " ++ err))
          ∧ (main i).steps.filter Step.isGoListenAndServe = []
       | .ok _ =>
          (main i).steps.filter Step.isGoListenAndServe
            = [Step.GoListenAndServe "0.0.0.0:3000"]) := by
  refine ⟨rfl, ?_⟩
  cases hnew : i.otlpNew Context.Background (CreateOTLPNewRelic.client i) with
  | error err =>
    rw [main_steps_exporter_fails i err hnew]
    simp [Step.isGoListenAndServe]
  | ok exporter =>
    cases hsig : i.stopSignal with
    | false =>
      rw [main_steps_blocked i exporter hnew hsig]
      simp [Step.isGoListenAndServe]
    | true =>
      rw [main_steps_after_signal i exporter hnew hsig]
      cases hs : i.srvShutdown <;> cases ht : i.tpShutdown Context.Background <;>
        simp [Step.isGoListenAndServe]

/-- C10, as stated, fails: in the run `cleanRun` both `srv.Shutdown` and
`tp.ForceFlush` are called with the background context, which has no deadline, whereas a
context made with a deadline has one. -/
theorem shutdown_and_flush_contexts_lack_deadline :
    (main cleanRun).steps.filter (fun st => st.isSrvShutdown || st.isTpForceFlush)
      = [Step.SrvShutdown Context.Background, Step.TpForceFlush Context.Background]
    ∧ Context.Background.Deadline = none
    ∧ (Context.WithDeadline Context.Background 5).Deadline = some 5 := by
  decide

/-- C10, amended: in every run of `main`, the context passed to `srv.Shutdown` and the
context passed to `tp.ForceFlush` are the background context, which carries no deadline:
neither the drain nor the flush is bounded. -/
theorem shutdown_and_flush_get_background_context (i : Inputs) (ctx : Context)
    (h : Step.SrvShutdown ctx ∈ (main i).steps ∨ Step.TpForceFlush ctx ∈ (main i).steps) :
    ctx = Context.Background ∧ ctx.Deadline = none := by
  have hctx : ctx = Context.Background := by
    cases hnew : i.otlpNew Context.Background (CreateOTLPNewRelic.client i) with
    | error err =>
      rw [main_steps_exporter_fails i err hnew] at h
      simp at h
    | ok exporter =>
      cases hsig : i.stopSignal with
      | false =>
        rw [main_steps_blocked i exporter hnew hsig] at h
        simp at h
      | true =>
        rw [main_steps_after_signal i exporter hnew hsig] at h
        cases hs : i.srvShutdown <;> cases ht : i.tpShutdown Context.Background <;> simp [hs, ht] at h <;>
          exact h
  subst hctx
  exact ⟨rfl, rfl⟩

/-- Witness of C10 amended, on the run `cleanRun` and the background context. -/
theorem shutdown_and_flush_get_background_context_witness :
    (Step.SrvShutdown Context.Background ∈ (main cleanRun).steps
      ∨ Step.TpForceFlush Context.Background ∈ (main cleanRun).steps)
    ∧ Context.Background = Context.Background ∧ Context.Background.Deadline = none :=
  ⟨by decide,
   shutdown_and_flush_get_background_context cleanRun Context.Background (by decide)⟩

end Telemetry
